import Mathlib

/-!
Verification of the request-classification / dispatch logic and the
validation / error-normalization contract of the web-analyzer gateway.

The embedding models, from the source:
  * `handle_agent_task` (main.py) — the legacy dispatcher with its three
    ordered routing rules and the surrounding try/except that converts any
    raised exception (including the 400 HTTPException) into a 500;
  * `WebsiteAnalyzer.analyze` (mcp/analyzers.py) composed with the message
    construction of `GeminiAnalyzer.analyze` (mcp/services.py);
  * `MusicSearcher.analyze` (mcp/analyzers.py) with its per-record
    KeyError-skip loop;
  * `ImageGenerator.analyze` (mcp/analyzers.py).

Leaf clients (HTTP fetch, hosted LLM, video search, image generation) are
passed in as function parameters; handlers are instrumented to record which
leaves they invoked and with which arguments.
-/

/-- Error taxonomy of spec §7. The constructor classifies the raise site:
`validation` for ValueError-class input/record validation failures — the
checks before a leaf call, WebsiteAnalyzer's blank-prompt check, and
MusicSearcher's pydantic record validation (pydantic ValidationError
subclasses ValueError, so the handler's except-ValueError clause catches
it) — `upstream` for error-sentinel / malformed leaf results (also
ValueErrors), `unexpected` for non-ValueError exceptions caught only by the
blanket handler. The string is the normalized message the handler
re-raises. -/
inductive Err where
  | validation : String → Err
  | upstream : String → Err
  | unexpected : String → Err
deriving DecidableEq, Repr

/-! ## Dispatcher (main.py, handle_agent_task) -/

/-- Untyped payload of the legacy endpoint: we model the two keys the
dispatcher inspects; `none` means the key is absent. -/
structure Payload where
  url : Option String
  prompt : Option String
deriving DecidableEq, Repr

/-- The three handlers a payload can be routed to. -/
inductive Route where
  | website
  | music
  | image
deriving DecidableEq, Repr

/-- Python's whitespace set for `str.strip()`: space, tab, newline, carriage
return, vertical tab, form feed. -/
def isPySpace (c : Char) : Bool :=
  c = ' ' || c = '\t' || c = '\n' || c = '\r' || c = '\x0b' || c = '\x0c'

/-- Python's `str.strip()`: remove leading and trailing whitespace. -/
def pyStrip (s : String) : String :=
  String.mk (((s.toList.dropWhile isPySpace).reverse.dropWhile isPySpace).reverse)

/-- Python's `str.startswith(pre)`. -/
def startsWithStr (s pre : String) : Bool :=
  pre.toList.isPrefixOf s.toList

/-- Python's `str.lower()` (ASCII case mapping; the dispatcher keywords are
all ASCII). -/
def lowerStr (s : String) : String :=
  String.mk (s.toList.map Char.toLower)

/-- Helper for the substring test: does `pat` occur as a contiguous run in the
list? -/
def containsAux (pat : List Char) : List Char → Bool
  | [] => pat.isPrefixOf []
  | c :: t => pat.isPrefixOf (c :: t) || containsAux pat t

/-- Python's `keyword in text` substring test. -/
def containsKw (text kw : String) : Bool :=
  containsAux kw.toList text.toList

/-- Keyword list of the music rule, from main.py line 171. -/
def musicKeywords : List String := ["find music", "play music", "search song"]

/-- Keyword list of the image rule, from main.py line 174. -/
def imageKeywords : List String := ["generate image", "create image"]

/-- `"prompt" in request and any(keyword in request["prompt"].lower() ...)`. -/
def promptHasAny (p : Option String) (kws : List String) : Bool :=
  match p with
  | none => false
  | some s => kws.any (fun k => containsKw (lowerStr s) k)

/-- `"url" in request and request["url"]`: key present and truthy
(non-empty string). -/
def urlTruthy (p : Payload) : Bool :=
  match p.url with
  | none => false
  | some u => u ≠ ""

/-- The three ordered routing rules of handle_agent_task (main.py 168-175);
`none` is the fall-through else branch. -/
def dispatchRoute (p : Payload) : Option Route :=
  if urlTruthy p then some Route.website
  else if promptHasAny p.prompt musicKeywords then some Route.music
  else if promptHasAny p.prompt imageKeywords then some Route.image
  else none

/-- An HTTPException as the endpoint surfaces it: status code and detail. -/
structure HTTPErrorOut where
  status : Nat
  detail : String
deriving DecidableEq, Repr

/-- Message of the no-match branch (main.py line 177). -/
def agentTaskMsg : String :=
  "Please specify a valid request type (website analysis, music search, or image generation)"

/-- Body of the `try` block of handle_agent_task: either a route is chosen or
`HTTPException(status_code=400, detail=msg)` is raised. -/
def agentTaskInner (p : Payload) : Except HTTPErrorOut Route :=
  match dispatchRoute p with
  | some r => Except.ok r
  | none => Except.error ⟨400, agentTaskMsg⟩

/-- The whole handle_agent_task dispatch: the `except Exception as e` clause
catches every exception raised in the try block — including the 400
HTTPException of the else branch — and re-raises
`HTTPException(status_code=500, detail=str(e))`, where starlette's
`str(HTTPException)` is `"{status_code}: {detail}"`. -/
def handleAgentTaskDispatch (p : Payload) : Except HTTPErrorOut Route :=
  match agentTaskInner p with
  | Except.ok r => Except.ok r
  | Except.error e => Except.error ⟨500, toString e.status ++ ": " ++ e.detail⟩

/-! ## ImageGenerator (mcp/analyzers.py 118-155) -/

/-- ImageGenerationRequest (mcp/models.py). -/
structure ImageGenerationRequest where
  prompt : String
deriving DecidableEq, Repr

/-- ImageGenerationResponse (mcp/models.py): `task` has pydantic default
"image_generation" and is never overridden; `error` defaults to none. -/
structure ImageGenerationResponse where
  task : String
  prompt : String
  image_url : String
  error : Option String
deriving DecidableEq, Repr

/-- ImageGenerator.analyze, instrumented: `generate` is the image leaf
(DeepAIGenerator.generate); the Bool records whether the leaf was invoked.
Mirrors mcp/analyzers.py 122-155: blank check, length check, leaf call,
empty / "Error:"-sentinel check, http-scheme check, ValueError re-raise with
the "Image generation failed: " message. -/
def imageAnalyze (generate : String → String) (req : ImageGenerationRequest) :
    Except Err ImageGenerationResponse × Bool :=
  if req.prompt = "" ∨ (pyStrip req.prompt).length = 0 then
    (Except.error (Err.validation "Image generation failed: Empty prompt provided"), false)
  else if req.prompt.length > 1000 then
    (Except.error (Err.validation
      "Image generation failed: Prompt too long. Maximum length is 1000 characters"), false)
  else
    let image_url := generate req.prompt
    if image_url = "" ∨ startsWithStr image_url "Error:" then
      (Except.error (Err.upstream ("Image generation failed: " ++
        (if image_url = "" then "No image URL returned" else image_url))), true)
    else if ¬(startsWithStr image_url "http://" ∨ startsWithStr image_url "https://") then
      (Except.error (Err.upstream "Image generation failed: Invalid image URL returned"), true)
    else
      (Except.ok ⟨"image_generation", req.prompt, image_url, none⟩, true)

/-! ## WebsiteAnalyzer (mcp/analyzers.py 18-60) + GeminiAnalyzer (mcp/services.py 42-70) -/

/-- WebsiteAnalysisRequest (mcp/models.py); the handler works on
`str(request.url)`, so the url is a string here. -/
structure WebsiteAnalysisRequest where
  url : String
  prompt : String
deriving DecidableEq, Repr

/-- WebsiteAnalysisResponse (mcp/models.py): `task` has pydantic default
"website_analysis" and is never overridden. -/
structure WebsiteAnalysisResponse where
  task : String
  source_url : String
  user_prompt : String
  analysis_result : String
deriving DecidableEq, Repr

/-- The two leaves WebsiteAnalyzer reaches: `fetch` is the fetch+extract leaf
(WebCodeFetcher.fetch: url to page text, or an "Error:" sentinel string);
`hosted` is the hosted language model behind GeminiAnalyzer
(`self.llm.invoke`: final message to reply text, "" for an empty reply). -/
structure WebLeaves where
  fetch : String → String
  hosted : String → String

/-- The message GeminiAnalyzer.analyze builds around an (already truncated)
page text and the user prompt — the f-string of mcp/services.py 51-59. -/
def geminiMessage (truncated userPrompt : String) : String :=
  "\n            Here is the text content from a website:\n            ---\n            "
    ++ truncated
    ++ "\n            ---\n            \n            Based on this content, please answer the following question:\n            "
    ++ userPrompt
    ++ "\n            "

/-- The full message GeminiAnalyzer.analyze sends to the hosted model: the
f-string interpolates `content[:30000]`, the first 30,000 characters of the
page text. -/
def geminiFinalPrompt (content userPrompt : String) : String :=
  geminiMessage (content.take 30000) userPrompt

/-- GeminiAnalyzer.analyze (mcp/services.py 49-70) given the hosted model:
builds the final message, invokes the model, and turns an empty reply into
the "Error:" sentinel its own except-clause produces. -/
def geminiAnalyze (hosted : String → String) (content userPrompt : String) : String :=
  let reply := hosted (geminiFinalPrompt content userPrompt)
  if reply = "" then "Error: Analysis failed - Empty response from Gemini" else reply

/-- Instrumented run of WebsiteAnalyzer.analyze: the result, whether the
fetch+extract leaf was invoked, and the list of messages sent to the hosted
model (in order). -/
structure WebTrace where
  result : Except Err WebsiteAnalysisResponse
  fetchCalled : Bool
  hostedMsgs : List String
deriving Repr

/-- WebsiteAnalyzer.analyze (mcp/analyzers.py 23-60), instrumented. Order of
steps as in the source: url check, fetch, fetch-sentinel check, blank-prompt
check, LLM call via geminiAnalyze, LLM-sentinel check, response construction.
Each ValueError is re-raised with the "Analysis failed: " message by the
except-clause. -/
def websiteAnalyze (L : WebLeaves) (req : WebsiteAnalysisRequest) : WebTrace :=
  if req.url = "" ∨ ¬(startsWithStr req.url "http://" ∨ startsWithStr req.url "https://") then
    ⟨Except.error (Err.validation
      "Analysis failed: Invalid URL. Must start with http:// or https://"), false, []⟩
  else
    let code := L.fetch req.url
    if startsWithStr code "Error:" then
      ⟨Except.error (Err.upstream ("Analysis failed: " ++ code)), true, []⟩
    else if req.prompt = "" ∨ (pyStrip req.prompt).length = 0 then
      ⟨Except.error (Err.validation "Analysis failed: Empty prompt provided"), true, []⟩
    else
      let analysis := geminiAnalyze L.hosted code req.prompt
      if startsWithStr analysis "Error:" then
        ⟨Except.error (Err.upstream ("Analysis failed: " ++ analysis)), true,
          [geminiFinalPrompt code req.prompt]⟩
      else
        ⟨Except.ok ⟨"website_analysis", req.url, req.prompt, analysis⟩, true,
          [geminiFinalPrompt code req.prompt]⟩

/-! ## MusicSearcher (mcp/analyzers.py 62-116) -/

/-- MusicSearchRequest (mcp/models.py). -/
structure MusicSearchRequest where
  query : String
deriving DecidableEq, Repr

/-- MusicVideo (mcp/models.py): all six fields required strings. -/
structure MusicVideo where
  title : String
  video_url : String
  embed_url : String
  thumbnail : String
  channel : String
  description : String
deriving DecidableEq, Repr

/-- MusicSearchResponse (mcp/models.py): `task` has pydantic default
"music_search"; `error` defaults to none and the handler never sets it. -/
structure MusicSearchResponse where
  task : String
  query : String
  results : List MusicVideo
  error : Option String
deriving DecidableEq, Repr

/-- One field of a raw search record (a Python dict entry): the key can be
absent (`missing`, dict access raises KeyError), hold a string (`ok`), or hold
a value of an invalid type (`bad`) that MusicVideo construction rejects with a
pydantic ValidationError — a non-KeyError. The string carried by `bad`
abstracts the validation detail pydantic reports for that field; the actual
detail text is produced by pydantic and is outside this embedding. -/
inductive RawField where
  | missing
  | ok : String → RawField
  | bad : String → RawField
deriving DecidableEq, Repr

/-- Does MusicVideo validation reject this field value? -/
def RawField.isBad : RawField → Bool
  | RawField.bad _ => true
  | _ => false

/-- The abstract validation detail of a rejected field value. -/
def RawField.badDetail : RawField → Option String
  | RawField.bad d => some d
  | _ => none

/-- A raw search record from the video-search leaf, one RawField per required
key. -/
structure RawRecord where
  title : RawField
  video_url : RawField
  embed_url : RawField
  thumbnail : RawField
  channel : RawField
  description : RawField
deriving DecidableEq, Repr

/-- The six fields in the access order of the MusicVideo construction
(mcp/analyzers.py 91-98). -/
def RawRecord.fields (r : RawRecord) : List RawField :=
  [r.title, r.video_url, r.embed_url, r.thumbnail, r.channel, r.description]

/-- Some required key is absent from the record. -/
def RawRecord.hasMissing (r : RawRecord) : Bool :=
  r.fields.any (fun f => f = RawField.missing)

/-- Some present value fails MusicVideo validation with a non-KeyError. -/
def RawRecord.hasBad (r : RawRecord) : Bool :=
  r.fields.any RawField.isBad

/-- The abstract details of the record's rejected field values, in field
order. -/
def RawRecord.badDetails (r : RawRecord) : List String :=
  r.fields.filterMap RawField.badDetail

/-- Join of the per-field details, standing in for the text of the one
aggregated pydantic ValidationError the MusicVideo construction raises. -/
def joinDetails : List String → String
  | [] => ""
  | [d] => d
  | d :: rest => d ++ "; " ++ joinDetails rest

/-- Outcome of the `MusicVideo(...)` construction attempt for one record:
a KeyError (some dict access failed — raised before the constructor runs, so
it wins over a bad value), a pydantic ValidationError carrying its detail
text, or a complete MusicVideo. -/
inductive ConvResult where
  | keyError
  | typeError : String → ConvResult
  | okVideo : MusicVideo → ConvResult
deriving DecidableEq, Repr

/-- The body of the per-record loop (mcp/analyzers.py 90-102): the six dict
accesses, then the MusicVideo construction. -/
def convertRecord (r : RawRecord) : ConvResult :=
  if r.hasMissing then ConvResult.keyError
  else
    match r.title, r.video_url, r.embed_url, r.thumbnail, r.channel, r.description with
    | RawField.ok t, RawField.ok v, RawField.ok e, RawField.ok th, RawField.ok c,
      RawField.ok d => ConvResult.okVideo ⟨t, v, e, th, c, d⟩
    | _, _, _, _, _, _ => ConvResult.typeError (joinDetails r.badDetails)

/-- The loop over raw records: KeyError skips the record (`continue`), any
other exception escapes the loop (`.error`, carrying the exception's text),
a converted video is appended. -/
def processRecords : List RawRecord → Except String (List MusicVideo)
  | [] => Except.ok []
  | r :: rs =>
    match convertRecord r with
    | ConvResult.keyError => processRecords rs
    | ConvResult.typeError d => Except.error d
    | ConvResult.okVideo v => (processRecords rs).map (fun vs => v :: vs)

/-- The complete record conversion as a partial function: `some` exactly when
all six keys are present with string values. Used to state what the loop
keeps. -/
def videoOf (r : RawRecord) : Option MusicVideo :=
  match r.title, r.video_url, r.embed_url, r.thumbnail, r.channel, r.description with
  | RawField.ok t, RawField.ok v, RawField.ok e, RawField.ok th, RawField.ok c,
    RawField.ok d => some ⟨t, v, e, th, c, d⟩
  | _, _, _, _, _, _ => none

/-- MusicSearcher.analyze (mcp/analyzers.py 66-116): blank-query check, leaf
search, empty-result early return, per-record conversion loop, response
construction. The pydantic ValidationError escaping the loop subclasses
ValueError, so it is caught by the `except ValueError as ve` clause
(mcp/analyzers.py 111), which re-raises
`ValueError("Music search failed: " + str(ve))` — not by the blanket
except-clause, which only sees non-ValueError exceptions. -/
def musicAnalyze (search : String → List RawRecord) (req : MusicSearchRequest) :
    Except Err MusicSearchResponse :=
  if req.query = "" ∨ (pyStrip req.query).length = 0 then
    Except.error (Err.validation "Music search failed: Empty search query provided")
  else
    let results := search req.query
    if results.isEmpty then
      Except.ok ⟨"music_search", req.query, [], none⟩
    else
      match processRecords results with
      | Except.error d =>
        Except.error (Err.validation ("Music search failed: " ++ d))
      | Except.ok vids => Except.ok ⟨"music_search", req.query, vids, none⟩

/-! ## Helper lemmas -/

/-- A string has length zero exactly when it is empty. -/
lemma str_len_zero (s : String) : s.length = 0 ↔ s = "" := by
  cases s with
  | mk d =>
    cases d with
    | nil => exact ⟨fun _ => rfl, fun _ => rfl⟩
    | cons c t =>
      constructor
      · intro h
        exact absurd h (by simp [String.length])
      · intro h
        have h2 : c :: t = ([] : List Char) := congrArg String.data h
        simp at h2

/-- The source's blank test `not s or len(s.strip()) == 0` is equivalent to
the stripped string being empty. -/
lemma blank_iff (s : String) : (s = "" ∨ (pyStrip s).length = 0) ↔ pyStrip s = "" := by
  constructor
  · rintro (h | h)
    · rw [h]; rfl
    · exact (str_len_zero _).mp h
  · intro h
    exact Or.inr ((str_len_zero _).mpr h)

/-! ## Claims -/

/-- Claim C1: a dispatcher payload carrying both a non-empty `url` and a
prompt whose lowercase form contains a music keyword routes to the
WebsiteAnalyzer handler, never to MusicSearcher or ImageGenerator: the url
rule is evaluated first and its match wins. -/
theorem C1_url_rule_priority (p : Payload)
    (hurl : urlTruthy p = true)
    (_hmusic : promptHasAny p.prompt musicKeywords = true) :
    dispatchRoute p = some Route.website ∧
    dispatchRoute p ≠ some Route.music ∧
    dispatchRoute p ≠ some Route.image := by
  have h : dispatchRoute p = some Route.website := by
    simp [dispatchRoute, hurl]
  exact ⟨h, by simp [h], by simp [h]⟩

theorem C1_url_rule_priority_witness :
    urlTruthy ⟨some "http://x.com", some "find music"⟩ = true ∧
    promptHasAny (Payload.prompt ⟨some "http://x.com", some "find music"⟩)
      musicKeywords = true ∧
    dispatchRoute ⟨some "http://x.com", some "find music"⟩ = some Route.website :=
  ⟨by decide, by decide,
    (C1_url_rule_priority ⟨some "http://x.com", some "find music"⟩
      (by decide) (by decide)).1⟩

/-- Claim C2 (code bug): on `{prompt: "hello"}` — no url, no keyword match —
the try block does raise the 400 HTTPException with the "valid request type"
message, but the surrounding `except Exception` clause of handle_agent_task
catches it and re-raises a 500 whose detail is the stringified 400 error, so
the surfaced status is 500, not the 400 the spec states. -/
theorem C2_no_match_surfaces_500 :
    agentTaskInner ⟨none, some "hello"⟩ = Except.error ⟨400, agentTaskMsg⟩ ∧
    handleAgentTaskDispatch ⟨none, some "hello"⟩ =
      Except.error ⟨500, "400: " ++ agentTaskMsg⟩ ∧
    containsKw agentTaskMsg "valid request type" = true :=
  ⟨rfl, rfl, by decide⟩

/-- Claim C3, counterexample: a request with a valid http URL and a
whitespace-only prompt does fail with the blank-prompt ValidationError, but
the fetch+extract leaf has already been invoked (`fetchCalled = true`) —
refuting "detected before any outbound call, i.e. without invoking the
fetch+extract leaf client". The blank-prompt check runs after the fetch
(mcp/analyzers.py line 33 before line 39). -/
theorem C3_counterexample :
    websiteAnalyze ⟨fun _ => "page text", fun _ => "answer"⟩ ⟨"http://x.com", " "⟩ =
      ⟨Except.error (Err.validation "Analysis failed: Empty prompt provided"), true, []⟩ :=
  rfl

/-- Claim C3, amended: for a valid http/https URL and a blank prompt, when
the fetch result carries no "Error:" sentinel, WebsiteAnalyzer.analyze fails
with the blank-prompt ValidationError — but only after invoking the
fetch+extract leaf; the LLM leaf is never invoked. -/
theorem C3_blank_prompt_validated_after_fetch (L : WebLeaves)
    (req : WebsiteAnalysisRequest)
    (hscheme : startsWithStr req.url "http://" = true ∨
      startsWithStr req.url "https://" = true)
    (hblank : pyStrip req.prompt = "")
    (hfetch : startsWithStr (L.fetch req.url) "Error:" = false) :
    (websiteAnalyze L req).result =
      Except.error (Err.validation "Analysis failed: Empty prompt provided") ∧
    (websiteAnalyze L req).fetchCalled = true ∧
    (websiteAnalyze L req).hostedMsgs = [] := by
  have hurlne : req.url ≠ "" := by
    intro h0
    rw [h0] at hscheme
    rcases hscheme with h | h <;> exact absurd h (by decide)
  have hb : req.prompt = "" ∨ (pyStrip req.prompt).length = 0 :=
    (blank_iff req.prompt).mpr hblank
  rcases hscheme with h | h <;>
    simp [websiteAnalyze, hurlne, h, hfetch, hb]

theorem C3_blank_prompt_validated_after_fetch_witness :
    startsWithStr "http://x.com" "http://" = true ∧
    pyStrip "\t " = "" ∧
    startsWithStr "page text" "Error:" = false ∧
    ((websiteAnalyze ⟨fun _ => "page text", fun _ => "answer"⟩
        ⟨"http://x.com", "\t "⟩).result =
      Except.error (Err.validation "Analysis failed: Empty prompt provided") ∧
    (websiteAnalyze ⟨fun _ => "page text", fun _ => "answer"⟩
        ⟨"http://x.com", "\t "⟩).fetchCalled = true ∧
    (websiteAnalyze ⟨fun _ => "page text", fun _ => "answer"⟩
        ⟨"http://x.com", "\t "⟩).hostedMsgs = []) :=
  ⟨by decide, by decide, by decide,
    C3_blank_prompt_validated_after_fetch
      ⟨fun _ => "page text", fun _ => "answer"⟩ ⟨"http://x.com", "\t "⟩
      (Or.inl (by decide)) (by decide) (by decide)⟩

/-- Claim C4: on the success path, the one message sent to the hosted model
is built from the first 30,000 characters of the fetched page text together
with the user prompt — the handler passes the full text to the LLM leaf
client, whose message construction interpolates `content[:30000]`. Proved for
every page text, which subsumes lengths above 30,000. -/
theorem C4_hosted_message_truncated (L : WebLeaves) (req : WebsiteAnalysisRequest)
    (resp : WebsiteAnalysisResponse)
    (hok : (websiteAnalyze L req).result = Except.ok resp) :
    (websiteAnalyze L req).hostedMsgs =
      [geminiMessage ((L.fetch req.url).take 30000) req.prompt] := by
  revert hok
  simp only [websiteAnalyze]
  split
  · simp
  · split
    · simp
    · split
      · simp
      · split
        · intro _
          simp [geminiFinalPrompt]
        · intro _
          simp [geminiFinalPrompt]

theorem C4_hosted_message_truncated_witness :
    (websiteAnalyze ⟨fun _ => "page text", fun _ => "answer"⟩
        ⟨"http://x.com", "what?"⟩).hostedMsgs =
      [geminiMessage ("page text".take 30000) "what?"] :=
  C4_hosted_message_truncated ⟨fun _ => "page text", fun _ => "answer"⟩
    ⟨"http://x.com", "what?"⟩
    ⟨"website_analysis", "http://x.com", "what?", "answer"⟩ rfl

/-- A record none of whose present values is bad converts to exactly what
`videoOf` says: a complete MusicVideo when all six keys are present, a
KeyError otherwise. -/
lemma convertRecord_of_no_bad (r : RawRecord) (h : r.hasBad = false) :
    convertRecord r =
      (match videoOf r with
        | some v => ConvResult.okVideo v
        | none => ConvResult.keyError) := by
  rcases r with ⟨f1, f2, f3, f4, f5, f6⟩
  simp only [RawRecord.hasBad, RawRecord.fields] at h
  cases f1 <;> cases f2 <;> cases f3 <;> cases f4 <;> cases f5 <;> cases f6 <;>
    simp_all [convertRecord, videoOf, RawRecord.hasMissing, RawRecord.fields,
      RawField.isBad]

/-- On a list of records free of bad values, the conversion loop succeeds and
keeps exactly the fully-converted records, in order. -/
lemma processRecords_of_no_bad (l : List RawRecord)
    (h : ∀ r ∈ l, r.hasBad = false) :
    processRecords l = Except.ok (l.filterMap videoOf) := by
  induction l with
  | nil => rfl
  | cons r rs ih =>
    have hr : r.hasBad = false := h r (List.mem_cons_self r rs)
    have hrs := ih (fun x hx => h x (List.mem_cons_of_mem r hx))
    rw [processRecords, convertRecord_of_no_bad r hr]
    cases hv : videoOf r with
    | none => simp [hrs, List.filterMap_cons, hv]
    | some v => simp [hrs, List.filterMap_cons, hv, Except.map]

/-- Claim C5: for a non-blank query and a non-empty leaf result list whose
records have no invalid-typed values, MusicSearcher.analyze drops exactly the
records with a missing required key and converts all the others, in the
leaf's order; a missing key never aborts the search and never produces a
partial MusicVideo (each kept record is the total conversion `videoOf`). -/
theorem C5_missing_field_skipped (search : String → List RawRecord)
    (req : MusicSearchRequest)
    (hq : pyStrip req.query ≠ "")
    (hne : search req.query ≠ [])
    (hnobad : ∀ r ∈ search req.query, r.hasBad = false) :
    musicAnalyze search req =
      Except.ok ⟨"music_search", req.query,
        (search req.query).filterMap videoOf, none⟩ := by
  have hbq : ¬(req.query = "" ∨ (pyStrip req.query).length = 0) := by
    intro h
    exact hq ((blank_iff req.query).mp h)
  have hemp : (search req.query).isEmpty = false := by
    cases h : search req.query with
    | nil => exact absurd h hne
    | cons a l => rfl
  simp only [musicAnalyze]
  rw [if_neg hbq, if_neg (by simp [hemp]), processRecords_of_no_bad _ hnobad]

theorem C5_missing_field_skipped_witness :
    pyStrip "lofi" ≠ "" ∧
    musicAnalyze (fun _ =>
      [⟨RawField.ok "t", RawField.ok "v", RawField.ok "e", RawField.ok "th",
        RawField.missing, RawField.ok "d"⟩,
       ⟨RawField.ok "t2", RawField.ok "v2", RawField.ok "e2", RawField.ok "th2",
        RawField.ok "c2", RawField.ok "d2"⟩]) ⟨"lofi"⟩ =
      Except.ok ⟨"music_search", "lofi",
        [⟨"t2", "v2", "e2", "th2", "c2", "d2"⟩], none⟩ :=
  ⟨by decide,
    C5_missing_field_skipped _ ⟨"lofi"⟩ (by decide) (by decide) (by decide)⟩

/-- Claim C6: a non-blank query whose leaf search yields the empty list
produces a successful MusicSearchResponse carrying the original query and an
empty results list, not a failure. -/
theorem C6_empty_results_success (search : String → List RawRecord)
    (req : MusicSearchRequest)
    (hq : pyStrip req.query ≠ "")
    (hempty : search req.query = []) :
    musicAnalyze search req =
      Except.ok ⟨"music_search", req.query, [], none⟩ := by
  have hbq : ¬(req.query = "" ∨ (pyStrip req.query).length = 0) := by
    intro h
    exact hq ((blank_iff req.query).mp h)
  simp only [musicAnalyze]
  rw [if_neg hbq, hempty]
  rfl

theorem C6_empty_results_success_witness :
    pyStrip "lofi" ≠ "" ∧
    musicAnalyze (fun _ => []) ⟨"lofi"⟩ =
      Except.ok ⟨"music_search", "lofi", [], none⟩ :=
  ⟨by decide, C6_empty_results_success (fun _ => []) ⟨"lofi"⟩ (by decide) rfl⟩

/-- Claim C7: a prompt longer than 1000 characters is rejected by
ImageGenerator.analyze with a ValidationError and the image leaf is never
invoked (a blank over-long prompt hits the blank check, any other over-long
prompt hits the length check; both precede the leaf call). -/
theorem C7_long_prompt_rejected (generate : String → String)
    (req : ImageGenerationRequest) (hlen : req.prompt.length > 1000) :
    (∃ m, (imageAnalyze generate req).1 = Except.error (Err.validation m)) ∧
    (imageAnalyze generate req).2 = false := by
  simp only [imageAnalyze]
  by_cases hb : req.prompt = "" ∨ (pyStrip req.prompt).length = 0
  · rw [if_pos hb]
    exact ⟨⟨_, rfl⟩, rfl⟩
  · rw [if_neg hb, if_pos hlen]
    exact ⟨⟨_, rfl⟩, rfl⟩

theorem C7_long_prompt_rejected_witness :
    (String.mk (List.replicate 1001 'a')).length > 1000 ∧
    ((∃ m, (imageAnalyze (fun _ => "http://img.example/x.png")
        ⟨String.mk (List.replicate 1001 'a')⟩).1 =
        Except.error (Err.validation m)) ∧
      (imageAnalyze (fun _ => "http://img.example/x.png")
        ⟨String.mk (List.replicate 1001 'a')⟩).2 = false) :=
  have hl : (String.mk (List.replicate 1001 'a')).length > 1000 := by
    show (List.replicate 1001 'a').length > 1000
    rw [List.length_replicate]
    decide
  ⟨hl, C7_long_prompt_rejected _ _ hl⟩

/-- Claim C8: with a valid prompt, a leaf value that is empty, carries the
"Error:" sentinel, or lacks an http/https scheme makes ImageGenerator.analyze
fail with an UpstreamError; and every successful response's image_url starts
with "http://" or "https://". -/
theorem C8_invalid_leaf_url_upstream (generate : String → String)
    (req : ImageGenerationRequest)
    (hq : pyStrip req.prompt ≠ "") (hlen : ¬req.prompt.length > 1000) :
    ((generate req.prompt = "" ∨
        startsWithStr (generate req.prompt) "Error:" = true ∨
        ¬(startsWithStr (generate req.prompt) "http://" = true ∨
          startsWithStr (generate req.prompt) "https://" = true)) →
      ∃ m, (imageAnalyze generate req).1 = Except.error (Err.upstream m)) ∧
    ∀ resp, (imageAnalyze generate req).1 = Except.ok resp →
      (startsWithStr resp.image_url "http://" = true ∨
        startsWithStr resp.image_url "https://" = true) := by
  have hb : ¬(req.prompt = "" ∨ (pyStrip req.prompt).length = 0) :=
    fun h => hq ((blank_iff _).mp h)
  simp only [imageAnalyze]
  rw [if_neg hb, if_neg hlen]
  constructor
  · intro hcase
    by_cases h1 : generate req.prompt = "" ∨
        startsWithStr (generate req.prompt) "Error:" = true
    · rw [if_pos h1]
      exact ⟨_, rfl⟩
    · rw [if_neg h1]
      have h2 : ¬(startsWithStr (generate req.prompt) "http://" = true ∨
          startsWithStr (generate req.prompt) "https://" = true) := by
        rcases hcase with h | h | h
        · exact absurd (Or.inl h) h1
        · exact absurd (Or.inr h) h1
        · exact h
      rw [if_pos h2]
      exact ⟨_, rfl⟩
  · intro resp hresp
    by_cases h1 : generate req.prompt = "" ∨
        startsWithStr (generate req.prompt) "Error:" = true
    · rw [if_pos h1] at hresp
      cases hresp
    · rw [if_neg h1] at hresp
      by_cases h2 : startsWithStr (generate req.prompt) "http://" = true ∨
          startsWithStr (generate req.prompt) "https://" = true
      · rw [if_neg (not_not_intro h2)] at hresp
        cases Except.ok.inj hresp
        exact h2
      · rw [if_pos h2] at hresp
        cases hresp

theorem C8_invalid_leaf_url_upstream_witness :
    pyStrip "a cat" ≠ "" ∧
    ¬("a cat" : String).length > 1000 ∧
    ((∃ m, (imageAnalyze (fun _ => "ftp://img") ⟨"a cat"⟩).1 =
        Except.error (Err.upstream m)) ∧
      ∀ resp, (imageAnalyze (fun _ => "ftp://img") ⟨"a cat"⟩).1 = Except.ok resp →
        (startsWithStr resp.image_url "http://" = true ∨
          startsWithStr resp.image_url "https://" = true)) :=
  ⟨by decide, by decide,
    (C8_invalid_leaf_url_upstream (fun _ => "ftp://img") ⟨"a cat"⟩
      (by decide) (by decide)).1 (Or.inr (Or.inr (by decide))),
    (C8_invalid_leaf_url_upstream (fun _ => "ftp://img") ⟨"a cat"⟩
      (by decide) (by decide)).2⟩

/-- Claim C9: every successful response carries its handler's fixed task tag:
"website_analysis" from WebsiteAnalyzer, "music_search" from MusicSearcher,
"image_generation" from ImageGenerator, for every input and leaf behavior. -/
theorem C9_task_tags :
    (∀ L req resp, (websiteAnalyze L req).result = Except.ok resp →
      resp.task = "website_analysis") ∧
    (∀ search req resp, musicAnalyze search req = Except.ok resp →
      resp.task = "music_search") ∧
    (∀ generate req resp, (imageAnalyze generate req).1 = Except.ok resp →
      resp.task = "image_generation") := by
  refine ⟨?_, ?_, ?_⟩
  · intro L req resp h
    revert h
    simp only [websiteAnalyze]
    split
    · simp
    · split
      · simp
      · split
        · simp
        · split
          · simp
          · intro h
            cases Except.ok.inj h
            rfl
  · intro search req resp h
    revert h
    simp only [musicAnalyze]
    split
    · simp
    · split
      · intro h
        cases Except.ok.inj h
        rfl
      · split
        · simp
        · intro h
          cases Except.ok.inj h
          rfl
  · intro generate req resp h
    revert h
    simp only [imageAnalyze]
    split
    · simp
    · split
      · simp
      · split
        · simp
        · split
          · simp
          · intro h
            cases Except.ok.inj h
            rfl

theorem C9_task_tags_witness :
    (⟨"website_analysis", "http://x.com", "what?", "answer"⟩ :
      WebsiteAnalysisResponse).task = "website_analysis" ∧
    (⟨"music_search", "lofi", [], none⟩ : MusicSearchResponse).task =
      "music_search" ∧
    (⟨"image_generation", "a cat", "https://img.example/cat.png", none⟩ :
      ImageGenerationResponse).task = "image_generation" :=
  ⟨C9_task_tags.1 ⟨fun _ => "page text", fun _ => "answer"⟩
      ⟨"http://x.com", "what?"⟩ _ rfl,
    C9_task_tags.2.1 (fun _ => []) ⟨"lofi"⟩ _ rfl,
    C9_task_tags.2.2 (fun _ => "https://img.example/cat.png") ⟨"a cat"⟩ _ rfl⟩

/-- A record with all keys present but some bad value fails MusicVideo
construction with a pydantic ValidationError carrying some detail text. -/
lemma convertRecord_typeError (r : RawRecord)
    (hm : r.hasMissing = false) (hb : r.hasBad = true) :
    ∃ d, convertRecord r = ConvResult.typeError d := by
  rcases r with ⟨f1, f2, f3, f4, f5, f6⟩
  simp only [RawRecord.hasMissing, RawRecord.hasBad, RawRecord.fields] at hm hb
  cases f1 <;> cases f2 <;> cases f3 <;> cases f4 <;> cases f5 <;> cases f6 <;>
    simp_all [convertRecord, RawRecord.hasMissing, RawRecord.fields, RawField.isBad]

/-- A non-KeyError conversion failure anywhere in the list escapes the loop. -/
lemma processRecords_error_of_typeError (l : List RawRecord)
    (h : ∃ r ∈ l, ∃ d, convertRecord r = ConvResult.typeError d) :
    ∃ d, processRecords l = Except.error d := by
  induction l with
  | nil =>
    rcases h with ⟨r, hr, _⟩
    cases hr
  | cons a rs ih =>
    rcases h with ⟨r, hr, d0, hconv⟩
    rcases List.mem_cons.mp hr with h0 | h0
    · subst h0
      refine ⟨d0, ?_⟩
      rw [processRecords, hconv]
    · cases hca : convertRecord a with
      | keyError =>
        obtain ⟨d1, hd⟩ := ih ⟨r, h0, d0, hconv⟩
        refine ⟨d1, ?_⟩
        rw [processRecords, hca, hd]
      | typeError d1 =>
        refine ⟨d1, ?_⟩
        rw [processRecords, hca]
      | okVideo v =>
        obtain ⟨d1, hd⟩ := ih ⟨r, h0, d0, hconv⟩
        refine ⟨d1, ?_⟩
        rw [processRecords, hca, hd]
        rfl

/-- Claim C10, counterexample: a list whose first record converts fine and
whose second has all keys present but a bad-typed `channel` value makes
MusicSearcher.analyze fail with the except-ValueError-clause failure
"Music search failed: <detail>" — a pydantic ValidationError subclasses
ValueError, so it never reaches the blanket except — refuting the claimed
handler-level "unexpected error" failure (the match conjunct states the
result is not an `unexpected` failure). -/
theorem C10_counterexample :
    musicAnalyze (fun _ =>
      [⟨RawField.ok "t", RawField.ok "v", RawField.ok "e", RawField.ok "th",
        RawField.ok "c", RawField.ok "d"⟩,
       ⟨RawField.ok "t2", RawField.ok "v2", RawField.ok "e2", RawField.ok "th2",
        RawField.bad "invalid channel", RawField.ok "d2"⟩]) ⟨"lofi"⟩ =
      Except.error (Err.validation "Music search failed: invalid channel") ∧
    (match musicAnalyze (fun _ =>
      [⟨RawField.ok "t", RawField.ok "v", RawField.ok "e", RawField.ok "th",
        RawField.ok "c", RawField.ok "d"⟩,
       ⟨RawField.ok "t2", RawField.ok "v2", RawField.ok "e2", RawField.ok "th2",
        RawField.bad "invalid channel", RawField.ok "d2"⟩]) ⟨"lofi"⟩ with
      | Except.error (Err.unexpected _) => False
      | _ => True) :=
  ⟨rfl, trivial⟩

/-- Claim C10, amended: the drop rule is KeyError-only — if some record has
every required key present but a value whose conversion fails with a
non-KeyError (pydantic ValidationError), the whole search fails and no
results are returned, even for records that converted successfully; the
failure surfaces through the handler's except-ValueError clause as
"Music search failed: <validation details>", not as the blanket-except
"unexpected error" failure. -/
theorem C10_bad_value_fails_via_valueerror_clause
    (search : String → List RawRecord) (req : MusicSearchRequest)
    (hq : pyStrip req.query ≠ "")
    (hbad : ∃ r ∈ search req.query, r.hasMissing = false ∧ r.hasBad = true) :
    ∃ d, musicAnalyze search req =
      Except.error (Err.validation ("Music search failed: " ++ d)) := by
  have hbq : ¬(req.query = "" ∨ (pyStrip req.query).length = 0) :=
    fun h => hq ((blank_iff _).mp h)
  rcases hbad with ⟨r, hr, hm, hb⟩
  have hne : (search req.query).isEmpty = false := by
    cases h : search req.query with
    | nil =>
      rw [h] at hr
      cases hr
    | cons a l => rfl
  obtain ⟨d, hproc⟩ :=
    processRecords_error_of_typeError _ ⟨r, hr, convertRecord_typeError r hm hb⟩
  refine ⟨d, ?_⟩
  simp only [musicAnalyze]
  rw [if_neg hbq, if_neg (by simp [hne]), hproc]

theorem C10_bad_value_fails_via_valueerror_clause_witness :
    pyStrip "lofi" ≠ "" ∧
    (∃ d, musicAnalyze (fun _ =>
      [⟨RawField.ok "t", RawField.ok "v", RawField.ok "e", RawField.ok "th",
        RawField.ok "c", RawField.ok "d"⟩,
       ⟨RawField.ok "t2", RawField.ok "v2", RawField.ok "e2", RawField.ok "th2",
        RawField.bad "invalid channel", RawField.ok "d2"⟩]) ⟨"lofi"⟩ =
      Except.error (Err.validation ("Music search failed: " ++ d))) :=
  ⟨by decide,
    C10_bad_value_fails_via_valueerror_clause _ ⟨"lofi"⟩ (by decide)
      ⟨⟨RawField.ok "t2", RawField.ok "v2", RawField.ok "e2", RawField.ok "th2",
        RawField.bad "invalid channel", RawField.ok "d2"⟩,
        by decide, by decide, by decide⟩⟩
